import Mathlib

/-!
Shallow embedding of `src/static/js/main.js`: a browser-side controller that
sequences upload → process → download of a spreadsheet file against a remote
service, reports progress, and surfaces errors.

The mutable browser state (the two script-level variables `currentFilename`
and `currentZipFile` plus the DOM attributes the script reads or writes) is
the structure `St`.  Each event handler of the script becomes a function
`St → St × List Event`, where the `List Event` is the ordered trace of
observable effects (network requests, progress updates, error displays,
timed delays, anchor clicks, console output) the handler performs.
Network round-trips are modelled by passing the outcome of the `fetch`
(either a transport error, as in the `.catch` branch, or a parsed JSON
response) as an argument to the handler.
-/

namespace RaackSync

/-- An observable effect emitted by a handler, in source order.
`hideProg` stands for `hideProgress()`, which hides the container after a
1000 ms `setTimeout`; `delayMs` stands for an explicit `setTimeout` settling
delay inside the processing chain; `revealDownload` stands for setting
`downloadSection.style.display = 'block'` together with the download-info
text; `anchorClick` is the programmatic click on the temporary `<a>` element
that triggers the browser-level retrieval. -/
inductive Event where
  | fetchReq (url : String)
  | showProg (text : String) (width : Nat)
  | updProg (width : Nat) (text : Option String)
  | hideProg
  | delayMs (ms : Nat)
  | showErr (msg : String)
  | hideErr
  | scrollTo (elem : String)
  | revealDownload
  | anchorClick (url : String) (downloadName : String)
  | pulse (ms : Nat)
  | consoleError (msg : String)
  deriving DecidableEq, Repr

/-- The script's state: the two session variables (`main.js` lines 1–2) and
the DOM attributes the script manipulates. -/
structure St where
  currentFilename : Option String
  currentZipFile : Option String
  progressVisible : Bool
  progressWidth : Nat
  progressText : String
  errorVisible : Bool
  errorMessage : String
  fileInfoVisible : Bool
  fileNameText : String
  fileRowsCount : Nat
  fileColumnsCount : Nat
  processBtnDisabled : Bool
  uploadAreaSuccess : Bool
  uploadAreaBorderColor : String
  uploadAreaBackground : String
  outputCountText : String
  downloadSectionVisible : Bool
  downloadInfoText : String
  deriving DecidableEq, Repr

/-- JavaScript truthiness of a string-or-null value: `null` and `""` are
falsy, every other string is truthy. -/
def truthy : Option String → Bool
  | none => false
  | some s => !s.isEmpty

/-- `showProgress(text, width)` (`main.js` 177–185). -/
def showProgress (text : String) (width : Nat) (st : St) : St :=
  { st with progressVisible := true, progressWidth := width, progressText := text }

/-- `updateProgress(width, text)` (`main.js` 187–195); the text is only
written when truthy (`if (text)`). -/
def updateProgress (width : Nat) (text : Option String) (st : St) : St :=
  let st := { st with progressWidth := width }
  match text with
  | some t => if t.isEmpty then st else { st with progressText := t }
  | none => st

/-- `hideProgress()` (`main.js` 197–202): the container is hidden after a
1000 ms `setTimeout`; the state records the hidden end state. -/
def hideProgress (st : St) : St :=
  { st with progressVisible := false }

/-- `showError(message)` (`main.js` 205–214): writes the message, reveals the
error section and scrolls to it (the scroll is an `Event`). -/
def showError (msg : String) (st : St) : St :=
  { st with errorVisible := true, errorMessage := msg }

/-- `hideError()` (`main.js` 216–219): defined in the script but never
called by any handler. -/
def hideError (st : St) : St :=
  { st with errorVisible := false }

/-- Parsed JSON body of an `/upload` response (`main.js` 57–69): either an
`error` field, or `filename`, `row_count` and `columns`. -/
structure UploadResponse where
  error : Option String
  filename : String
  row_count : Nat
  columns : List String
  deriving DecidableEq, Repr

/-- Parsed JSON body of a `/process` response (`main.js` 110–129). -/
structure ProcessResponse where
  error : Option String
  zip_file : String
  files_created : Nat
  deriving DecidableEq, Repr

/-- Outcome of a `fetch` round-trip: a transport failure (the `.catch`
branch, carrying `error.message`) or a parsed response body. -/
inductive FetchOutcome (α : Type) where
  | netError (msg : String)
  | resp (r : α)
  deriving DecidableEq, Repr

/-- The anchored case-insensitive regex test
`file.name.match(/\.(xlsx|xls|csv)$/i)` (`main.js` 38), operating on the
case-folded character list of the name, read from the end. -/
def extMatchList : List Char → Bool
  | 'x' :: 's' :: 'l' :: 'x' :: '.' :: _ => true
  | 's' :: 'l' :: 'x' :: '.' :: _ => true
  | 'v' :: 's' :: 'c' :: '.' :: _ => true
  | _ => false

/-- Whether a file name passes the extension check of `handleFile`. -/
def extMatch (name : String) : Bool :=
  extMatchList (name.data.map Char.toLower).reverse

/-- `uploadFile(file)` (`main.js` 46–91), with the outcome of the `/upload`
fetch passed as an argument. -/
def uploadFile (outcome : FetchOutcome UploadResponse) (st : St) : St × List Event :=
  let st := showProgress "Uploading file..." 0 st
  let ev0 : List Event := [.showProg "Uploading file..." 0, .fetchReq "/upload"]
  match outcome with
  | .netError msg =>
      let m := "Error uploading file: " ++ msg
      (hideProgress (showError m st),
       ev0 ++ [.showErr m, .scrollTo "errorSection", .hideProg])
  | .resp data =>
      if truthy data.error then
        let m := data.error.getD ""
        (showError m st, ev0 ++ [.showErr m, .scrollTo "errorSection"])
      else
        let st := { st with
          currentFilename := some data.filename,
          fileInfoVisible := true,
          fileNameText := data.filename,
          fileRowsCount := data.row_count,
          fileColumnsCount := data.columns.length,
          processBtnDisabled := false }
        let st := hideProgress st
        let st := { st with
          uploadAreaSuccess := true,
          uploadAreaBorderColor := "#28a745",
          uploadAreaBackground := "#f0f4ff" }
        (st, ev0 ++ [.hideProg])

/-- `handleFile(file)` (`main.js` 37–44): validate the extension, then
upload; on rejection, show the validation message and stop. -/
def handleFile (name : String) (outcome : FetchOutcome UploadResponse) (st : St) :
    St × List Event :=
  if extMatch name then
    uploadFile outcome st
  else
    (showError "Please upload an Excel (.xlsx, .xls) or CSV (.csv) file." st,
     [.showErr "Please upload an Excel (.xlsx, .xls) or CSV (.csv) file.",
      .scrollTo "errorSection"])

/-- The `processBtn` click handler (`main.js` 94–147), with the outcome of
the `/process` fetch passed as an argument. -/
def processClick (outcome : FetchOutcome ProcessResponse) (st : St) : St × List Event :=
  if !(truthy st.currentFilename) then
    (showError "Please upload a file first." st,
     [.showErr "Please upload a file first.", .scrollTo "errorSection"])
  else
    let st := showProgress "Processing file... This may take a moment..." 10 st
    let ev0 : List Event :=
      [.showProg "Processing file... This may take a moment..." 10, .fetchReq "/process"]
    match outcome with
    | .netError msg =>
        let m := "Error processing file: " ++ msg
        (hideProgress (showError m st),
         ev0 ++ [.showErr m, .scrollTo "errorSection", .hideProg])
    | .resp data =>
        if truthy data.error then
          let m := data.error.getD ""
          (hideProgress (showError m st),
           ev0 ++ [.showErr m, .scrollTo "errorSection", .hideProg])
        else
          let st := updateProgress 50 (some "Creating Excel files...") st
          let st := updateProgress 80 (some "Creating ZIP archive...") st
          let st := updateProgress 100 (some "Processing complete!") st
          let st := { st with
            currentZipFile := some data.zip_file,
            outputCountText := toString data.files_created,
            downloadSectionVisible := true,
            downloadInfoText :=
              "Created " ++ toString data.files_created ++ " Excel files in the ZIP archive." }
          let st := hideProgress st
          (st, ev0 ++
            [.updProg 50 (some "Creating Excel files..."), .delayMs 1000,
             .updProg 80 (some "Creating ZIP archive..."), .delayMs 1000,
             .updProg 100 (some "Processing complete!"), .revealDownload,
             .scrollTo "downloadSection", .hideProg])

/-- The `downloadBtn` click handler (`main.js` 150–174). -/
def downloadClick (st : St) : St × List Event :=
  if !(truthy st.currentZipFile) then
    (showError "No file available for download." st,
     [.showErr "No file available for download.", .scrollTo "errorSection"])
  else
    let zip := st.currentZipFile.getD ""
    (st, [.anchorClick ("/download/" ++ zip) zip, .pulse 2000])

/-- The `beforeunload` listener (`main.js` 224–227): one `/cleanup` request;
a failure is only logged to the console.  `failure` is `some e.message` when
the fetch rejects. -/
def beforeunloadHandler (failure : Option String) (st : St) : St × List Event :=
  (st, [.fetchReq "/cleanup"] ++
    (match failure with
     | some e => [.consoleError ("Cleanup error: " ++ e)]
     | none => []))

/-- The `dragover` listener (`main.js` 8–12): pure styling. -/
def dragoverHandler (st : St) : St × List Event :=
  ({ st with uploadAreaBorderColor := "#764ba2", uploadAreaBackground := "#f0f4ff" }, [])

/-- The `dragleave` listener (`main.js` 14–18): pure styling. -/
def dragleaveHandler (st : St) : St × List Event :=
  ({ st with uploadAreaBorderColor := "#667eea", uploadAreaBackground := "white" }, [])

/-- The `drop` listener (`main.js` 20–29): reset styling, then handle the
first dropped file, if any.  Each dropped file comes with the outcome its
upload fetch would have. -/
def dropHandler (files : List (String × FetchOutcome UploadResponse)) (st : St) :
    St × List Event :=
  let st := { st with uploadAreaBorderColor := "#667eea", uploadAreaBackground := "white" }
  match files with
  | [] => (st, [])
  | (name, outcome) :: _ => handleFile name outcome st

/-- The `fileInput` `change` listener (`main.js` 31–35). -/
def fileInputChange (files : List (String × FetchOutcome UploadResponse)) (st : St) :
    St × List Event :=
  match files with
  | [] => (st, [])
  | (name, outcome) :: _ => handleFile name outcome st

/-- One user- or platform-initiated event of the page, with the network
outcomes its handler will observe. -/
inductive Step where
  | dragover
  | dragleave
  | drop (files : List (String × FetchOutcome UploadResponse))
  | fileChange (files : List (String × FetchOutcome UploadResponse))
  | processBtn (outcome : FetchOutcome ProcessResponse)
  | downloadBtn
  | beforeunload (failure : Option String)

/-- Dispatch a step to the handler the script registers for it. -/
def applyStep : Step → St → St × List Event
  | .dragover => dragoverHandler
  | .dragleave => dragleaveHandler
  | .drop files => dropHandler files
  | .fileChange files => fileInputChange files
  | .processBtn outcome => processClick outcome
  | .downloadBtn => downloadClick
  | .beforeunload failure => beforeunloadHandler failure

/-- Modelled from the spec: the page's initial HTML is not under `src/`.
Per the spec, the Session identifiers are absent at page load, the process
button's entry point "is disabled beforehand", and the file-info, download
and error sections start hidden. -/
def initState : St :=
  { currentFilename := none
    currentZipFile := none
    progressVisible := false
    progressWidth := 0
    progressText := ""
    errorVisible := false
    errorMessage := ""
    fileInfoVisible := false
    fileNameText := ""
    fileRowsCount := 0
    fileColumnsCount := 0
    processBtnDisabled := true
    uploadAreaSuccess := false
    uploadAreaBorderColor := "#667eea"
    uploadAreaBackground := "white"
    outputCountText := ""
    downloadSectionVisible := false
    downloadInfoText := "" }

/-- Predicate picking out network requests in a trace. -/
def isFetchReq : Event → Bool
  | .fetchReq _ => true
  | _ => false

/-- Predicate picking out browser-level retrieval triggers in a trace. -/
def isRetrieval : Event → Bool
  | .anchorClick _ _ => true
  | _ => false

/-- Predicate picking out error displays in a trace. -/
def isShowErr : Event → Bool
  | .showErr _ => true
  | _ => false

/-- Predicate picking out error-surface hides in a trace. -/
def isHideErr : Event → Bool
  | .hideErr => true
  | _ => false

/-- Predicate picking out progress hides in a trace. -/
def isHideProg : Event → Bool
  | .hideProg => true
  | _ => false

example : extMatch "Data.XLSX" = true := by decide
example : extMatch "data.xls" = true := by decide
example : extMatch "data.csv" = true := by decide
example : extMatch "data.txt" = false := by decide
example : extMatch "csv" = false := by decide
example : extMatch "data.csv.exe" = false := by decide

/-- A state after a successful upload of `data.csv`, used to instantiate
theorems whose hypotheses require an uploaded session. -/
def uploadedState : St :=
  { initState with currentFilename := some "data.csv", processBtnDisabled := false }

/-- A state carrying identifiers of a fully completed prior session. -/
def staleState : St :=
  { initState with
    currentFilename := some "old.csv",
    currentZipFile := some "old_output.zip",
    downloadSectionVisible := true,
    outputCountText := "3" }

/-- A successful `/upload` response for a fresh file. -/
def freshUpload : UploadResponse :=
  { error := none, filename := "new.csv", row_count := 7, columns := ["a", "b"] }

/-- The spec's example upload response: `data.csv`, 120 rows, 5 named columns. -/
def dataCsvUpload : UploadResponse :=
  { error := none, filename := "data.csv", row_count := 120,
    columns := ["c1", "c2", "c3", "c4", "c5"] }

/-- An `/upload` response carrying a service-reported error payload. -/
def uploadErrResp : UploadResponse :=
  { error := some "Unsupported encoding", filename := "", row_count := 0, columns := [] }

/-- A `/process` response carrying a service-reported error payload. -/
def processErrResp : ProcessResponse :=
  { error := some "Unsupported encoding", zip_file := "", files_created := 0 }

/-- The spec's example `/process` success response. -/
def out123Process : ProcessResponse :=
  { error := none, zip_file := "out_123.zip", files_created := 4 }

/-- Claim C3: invoking the process operation while `currentFilename` is
absent fails immediately with exactly "Please upload a file first.", issues
no network request (the trace holds no `fetchReq`), and changes nothing but
the error surface. -/
theorem process_without_upload_fails_locally
    (outcome : FetchOutcome ProcessResponse) (st : St)
    (h : st.currentFilename = none) :
    processClick outcome st =
      ({ st with errorVisible := true, errorMessage := "Please upload a file first." },
       [.showErr "Please upload a file first.", .scrollTo "errorSection"]) ∧
    (processClick outcome st).2.countP isFetchReq = 0 := by
  refine ⟨?_, ?_⟩ <;>
    simp [processClick, truthy, h, showError, isFetchReq, List.countP_cons, List.countP_nil]

/-- Witness for C3 at the initial state. -/
theorem process_without_upload_fails_locally_witness :
    processClick (FetchOutcome.netError "boom") initState =
      ({ initState with errorVisible := true, errorMessage := "Please upload a file first." },
       [.showErr "Please upload a file first.", .scrollTo "errorSection"]) ∧
    (processClick (FetchOutcome.netError "boom") initState).2.countP isFetchReq = 0 :=
  process_without_upload_fails_locally (FetchOutcome.netError "boom") initState rfl

/-- Claim C4: the download click with `currentZipFile` absent fails with
exactly "No file available for download." and triggers no retrieval; with a
(truthy) reference present it triggers exactly one retrieval, whose target
is `/download/` followed by the reference. -/
theorem download_guarded_by_zip (st : St) :
    (st.currentZipFile = none →
      downloadClick st =
        ({ st with errorVisible := true, errorMessage := "No file available for download." },
         [.showErr "No file available for download.", .scrollTo "errorSection"]) ∧
      (downloadClick st).2.countP isRetrieval = 0) ∧
    (∀ zip, st.currentZipFile = some zip → zip.isEmpty = false →
      downloadClick st = (st, [.anchorClick ("/download/" ++ zip) zip, .pulse 2000]) ∧
      (downloadClick st).2.countP isRetrieval = 1) := by
  constructor
  · intro h
    refine ⟨?_, ?_⟩ <;>
      simp [downloadClick, truthy, h, showError, isRetrieval, List.countP_cons, List.countP_nil]
  · intro zip h hz
    refine ⟨?_, ?_⟩ <;>
      simp [downloadClick, truthy, h, hz, isRetrieval, List.countP_cons, List.countP_nil]

/-- Witness for C4: absent reference at the initial state, and a present
reference `out_123.zip`. -/
theorem download_guarded_by_zip_witness :
    (downloadClick initState =
      ({ initState with
          errorVisible := true,
          errorMessage := "No file available for download." },
       [.showErr "No file available for download.", .scrollTo "errorSection"]) ∧
     (downloadClick initState).2.countP isRetrieval = 0) ∧
    (downloadClick { initState with currentZipFile := some "out_123.zip" } =
      ({ initState with currentZipFile := some "out_123.zip" },
       [.anchorClick "/download/out_123.zip" "out_123.zip", .pulse 2000]) ∧
     (downloadClick { initState with currentZipFile := some "out_123.zip" }).2.countP
        isRetrieval = 1) :=
  ⟨(download_guarded_by_zip initState).1 rfl,
   (download_guarded_by_zip { initState with currentZipFile := some "out_123.zip" }).2
     "out_123.zip" rfl (by decide)⟩

/-- Claim C9: the `beforeunload` handler issues exactly one network request,
to `/cleanup`, from every state (so regardless of how many uploads or
processes occurred); it never shows an error (no `showErr` in its trace,
state unchanged) and a fetch failure only produces a console log. -/
theorem cleanup_once_and_swallowed (failure : Option String) (st : St) :
    (beforeunloadHandler failure st).1 = st ∧
    (beforeunloadHandler failure st).2.countP isFetchReq = 1 ∧
    Event.fetchReq "/cleanup" ∈ (beforeunloadHandler failure st).2 ∧
    (beforeunloadHandler failure st).2.countP isShowErr = 0 ∧
    (∀ e, failure = some e →
      Event.consoleError ("Cleanup error: " ++ e) ∈ (beforeunloadHandler failure st).2) := by
  cases failure <;>
    simp [beforeunloadHandler, isFetchReq, isShowErr, List.countP_cons, List.countP_nil]

/-- Witness for C9 (the inner conjunct on `failure` has a hypothesis):
a failing cleanup fetch at a state with a full session. -/
theorem cleanup_once_and_swallowed_witness :
    (beforeunloadHandler (some "network down") staleState).1 = staleState ∧
    (beforeunloadHandler (some "network down") staleState).2.countP isFetchReq = 1 ∧
    Event.fetchReq "/cleanup" ∈ (beforeunloadHandler (some "network down") staleState).2 ∧
    (beforeunloadHandler (some "network down") staleState).2.countP isShowErr = 0 ∧
    (∀ e, (some "network down" : Option String) = some e →
      Event.consoleError ("Cleanup error: " ++ e) ∈
        (beforeunloadHandler (some "network down") staleState).2) :=
  cleanup_once_and_swallowed (some "network down") staleState

/-- Counterexample to claim C1: in a state holding a prior session's
archive reference, a successful upload of a new file sets
`currentFilename` but leaves `currentZipFile` at the old reference, which
the download click still resolves — the prior identifier stays usable. -/
theorem upload_success_keeps_stale_zip_cex :
    (uploadFile (FetchOutcome.resp freshUpload) staleState).1.currentFilename =
      some "new.csv" ∧
    (uploadFile (FetchOutcome.resp freshUpload) staleState).1.currentZipFile =
      some "old_output.zip" ∧
    (downloadClick (uploadFile (FetchOutcome.resp freshUpload) staleState).1).2 =
      [Event.anchorClick "/download/old_output.zip" "old_output.zip", Event.pulse 2000] := by
  decide

/-- Claim C1 as amended: a successful upload overwrites
`currentFilename` with the new file's name, but does not touch
`currentZipFile`: the prior session's archive reference survives unchanged
(and remains usable) until a later process success overwrites it. -/
theorem upload_success_overwrites_filename_not_zip
    (data : UploadResponse) (st : St) (h : truthy data.error = false) :
    (uploadFile (.resp data) st).1.currentFilename = some data.filename ∧
    (uploadFile (.resp data) st).1.currentZipFile = st.currentZipFile := by
  refine ⟨?_, ?_⟩ <;> simp [uploadFile, h, showProgress, hideProgress]

/-- Witness for amended C1. -/
theorem upload_success_overwrites_filename_not_zip_witness :
    (uploadFile (.resp freshUpload) staleState).1.currentFilename =
      some freshUpload.filename ∧
    (uploadFile (.resp freshUpload) staleState).1.currentZipFile =
      staleState.currentZipFile :=
  upload_success_overwrites_filename_not_zip freshUpload staleState (by decide)

/-- Claim C8: a successful upload response stores the file name into the
session, hides progress (one `hideProg` in the trace), switches the upload
area to its terminal success representation, and enables the process
button; at the page's initial state that button is disabled. -/
theorem upload_success_enables_process
    (data : UploadResponse) (st : St) (h : truthy data.error = false) :
    (uploadFile (.resp data) st).1.currentFilename = some data.filename ∧
    (uploadFile (.resp data) st).1.progressVisible = false ∧
    (uploadFile (.resp data) st).2.countP isHideProg = 1 ∧
    (uploadFile (.resp data) st).1.uploadAreaSuccess = true ∧
    (uploadFile (.resp data) st).1.processBtnDisabled = false ∧
    initState.processBtnDisabled = true := by
  refine ⟨?_, ?_, ?_, ?_, ?_, rfl⟩ <;>
    simp [uploadFile, h, showProgress, hideProgress, isHideProg,
      List.countP_cons, List.countP_nil]

/-- Witness for C8: the spec's example upload (`data.csv`, 120 rows, 5
columns) applied at the initial state. -/
theorem upload_success_enables_process_witness :
    (uploadFile (.resp dataCsvUpload) initState).1.currentFilename =
      some dataCsvUpload.filename ∧
    (uploadFile (.resp dataCsvUpload) initState).1.progressVisible = false ∧
    (uploadFile (.resp dataCsvUpload) initState).2.countP isHideProg = 1 ∧
    (uploadFile (.resp dataCsvUpload) initState).1.uploadAreaSuccess = true ∧
    (uploadFile (.resp dataCsvUpload) initState).1.processBtnDisabled = false ∧
    initState.processBtnDisabled = true :=
  upload_success_enables_process dataCsvUpload initState (by decide)

/-- Counterexample to claim C2: on an `/upload` response carrying an error
payload, the handler shows exactly the payload message but does not hide
the progress indicator — `hideProgress` is never reached (the code returns
first), so the progress bar stays visible at "Uploading file...". -/
theorem upload_error_payload_progress_not_hidden_cex :
    (uploadFile (FetchOutcome.resp uploadErrResp) initState).1.errorMessage =
      "Unsupported encoding" ∧
    (uploadFile (FetchOutcome.resp uploadErrResp) initState).1.progressVisible = true ∧
    (uploadFile (FetchOutcome.resp uploadErrResp) initState).1.progressText =
      "Uploading file..." ∧
    (uploadFile (FetchOutcome.resp uploadErrResp) initState).2.countP isHideProg = 0 := by
  decide

/-- Claim C2 as amended: every failure path reports its message through the
error surface and leaves both session identifiers unchanged; progress is
hidden on an upload network error and on both process failures, but on an
upload service-reported error payload the progress indicator is left
visible (no `hideProg` is emitted). -/
theorem failure_paths_report_and_preserve_session
    (st : St) (m e : String) (ur : UploadResponse) (pr : ProcessResponse)
    (hm : m.isEmpty = false) (hu : ur.error = some m) (hp : pr.error = some m) :
    ((uploadFile (.netError e) st).1.errorMessage = "Error uploading file: " ++ e ∧
     (uploadFile (.netError e) st).1.errorVisible = true ∧
     (uploadFile (.netError e) st).1.progressVisible = false ∧
     (uploadFile (.netError e) st).1.currentFilename = st.currentFilename ∧
     (uploadFile (.netError e) st).1.currentZipFile = st.currentZipFile) ∧
    ((uploadFile (.resp ur) st).1.errorMessage = m ∧
     (uploadFile (.resp ur) st).1.errorVisible = true ∧
     (uploadFile (.resp ur) st).1.progressVisible = true ∧
     (uploadFile (.resp ur) st).2.countP isHideProg = 0 ∧
     (uploadFile (.resp ur) st).1.currentFilename = st.currentFilename ∧
     (uploadFile (.resp ur) st).1.currentZipFile = st.currentZipFile) ∧
    (truthy st.currentFilename = true →
     (processClick (.resp pr) st).1.errorMessage = m ∧
     (processClick (.resp pr) st).1.errorVisible = true ∧
     (processClick (.resp pr) st).1.progressVisible = false ∧
     (processClick (.resp pr) st).1.currentFilename = st.currentFilename ∧
     (processClick (.resp pr) st).1.currentZipFile = st.currentZipFile) ∧
    (truthy st.currentFilename = true →
     (processClick (.netError e) st).1.errorMessage = "Error processing file: " ++ e ∧
     (processClick (.netError e) st).1.errorVisible = true ∧
     (processClick (.netError e) st).1.progressVisible = false ∧
     (processClick (.netError e) st).1.currentFilename = st.currentFilename ∧
     (processClick (.netError e) st).1.currentZipFile = st.currentZipFile) := by
  refine ⟨?_, ?_, ?_, ?_⟩
  · refine ⟨?_, ?_, ?_, ?_, ?_⟩ <;>
      simp [uploadFile, showProgress, showError, hideProgress, truthy, hu, hm,
        isHideProg, List.countP_cons, List.countP_nil]
  · refine ⟨?_, ?_, ?_, ?_, ?_, ?_⟩ <;>
      simp [uploadFile, showProgress, showError, hideProgress, truthy, hu, hm,
        isHideProg, List.countP_cons, List.countP_nil]
  · intro hf
    simp only [processClick, hf, Bool.not_true]
    refine ⟨?_, ?_, ?_, ?_, ?_⟩ <;>
      simp [showProgress, showError, hideProgress, truthy, hp, hm,
        isHideProg, List.countP_cons, List.countP_nil]
  · intro hf
    simp only [processClick, hf, Bool.not_true]
    refine ⟨?_, ?_, ?_, ?_, ?_⟩ <;>
      simp [showProgress, showError, hideProgress, truthy, hm,
        isHideProg, List.countP_cons, List.countP_nil]

/-- Witness for amended C2, with the spec's example payload "Unsupported
encoding": the upload failures at the fresh initial state (no prior upload),
the process failures at an uploaded session. -/
theorem failure_paths_report_and_preserve_session_witness :
    ((uploadFile (.netError "boom") initState).1.errorMessage =
        "Error uploading file: " ++ "boom" ∧
     (uploadFile (.netError "boom") initState).1.errorVisible = true ∧
     (uploadFile (.netError "boom") initState).1.progressVisible = false ∧
     (uploadFile (.netError "boom") initState).1.currentFilename =
        initState.currentFilename ∧
     (uploadFile (.netError "boom") initState).1.currentZipFile =
        initState.currentZipFile) ∧
    ((uploadFile (.resp uploadErrResp) initState).1.errorMessage =
        "Unsupported encoding" ∧
     (uploadFile (.resp uploadErrResp) initState).1.errorVisible = true ∧
     (uploadFile (.resp uploadErrResp) initState).1.progressVisible = true ∧
     (uploadFile (.resp uploadErrResp) initState).2.countP isHideProg = 0 ∧
     (uploadFile (.resp uploadErrResp) initState).1.currentFilename =
        initState.currentFilename ∧
     (uploadFile (.resp uploadErrResp) initState).1.currentZipFile =
        initState.currentZipFile) ∧
    ((processClick (.resp processErrResp) uploadedState).1.errorMessage =
        "Unsupported encoding" ∧
     (processClick (.resp processErrResp) uploadedState).1.errorVisible = true ∧
     (processClick (.resp processErrResp) uploadedState).1.progressVisible = false ∧
     (processClick (.resp processErrResp) uploadedState).1.currentFilename =
        uploadedState.currentFilename ∧
     (processClick (.resp processErrResp) uploadedState).1.currentZipFile =
        uploadedState.currentZipFile) ∧
    ((processClick (.netError "boom") uploadedState).1.errorMessage =
        "Error processing file: " ++ "boom" ∧
     (processClick (.netError "boom") uploadedState).1.errorVisible = true ∧
     (processClick (.netError "boom") uploadedState).1.progressVisible = false ∧
     (processClick (.netError "boom") uploadedState).1.currentFilename =
        uploadedState.currentFilename ∧
     (processClick (.netError "boom") uploadedState).1.currentZipFile =
        uploadedState.currentZipFile) := by
  have h0 := failure_paths_report_and_preserve_session initState
    "Unsupported encoding" "boom" uploadErrResp processErrResp
    (by decide) (by decide) (by decide)
  have h1 := failure_paths_report_and_preserve_session uploadedState
    "Unsupported encoding" "boom" uploadErrResp processErrResp
    (by decide) (by decide) (by decide)
  exact ⟨h0.1, h0.2.1, h1.2.2.1 (by decide), h1.2.2.2 (by decide)⟩

/-- Claim C6: on a successful `/process` response the handler's trace is
exactly: percent 10 with the processing label at request start, the
`/process` request, percent 50 "Creating Excel files..." on the result,
percent 80 "Creating ZIP archive..." after a 1000 ms delay, percent 100
"Processing complete!" after a further 1000 ms delay, then the reveal of
the result, the scroll to it, and the (deferred) hiding of progress. -/
theorem process_success_progress_order
    (data : ProcessResponse) (st : St)
    (hf : truthy st.currentFilename = true)
    (he : truthy data.error = false) :
    (processClick (.resp data) st).2 =
      [.showProg "Processing file... This may take a moment..." 10,
       .fetchReq "/process",
       .updProg 50 (some "Creating Excel files..."),
       .delayMs 1000,
       .updProg 80 (some "Creating ZIP archive..."),
       .delayMs 1000,
       .updProg 100 (some "Processing complete!"),
       .revealDownload,
       .scrollTo "downloadSection",
       .hideProg] ∧
    (processClick (.resp data) st).1.progressWidth = 100 ∧
    (processClick (.resp data) st).1.progressText = "Processing complete!" ∧
    (processClick (.resp data) st).1.progressVisible = false := by
  refine ⟨?_, ?_, ?_, ?_⟩ <;>
  · simp only [processClick, hf, he, Bool.not_true]
    simp [showProgress, updateProgress, hideProgress,
      (by decide : ("Creating Excel files..." : String).isEmpty = false),
      (by decide : ("Creating ZIP archive..." : String).isEmpty = false),
      (by decide : ("Processing complete!" : String).isEmpty = false)]

/-- Witness for C6 with the spec's example response at an uploaded session. -/
theorem process_success_progress_order_witness :
    (processClick (.resp out123Process) uploadedState).2 =
      [.showProg "Processing file... This may take a moment..." 10,
       .fetchReq "/process",
       .updProg 50 (some "Creating Excel files..."),
       .delayMs 1000,
       .updProg 80 (some "Creating ZIP archive..."),
       .delayMs 1000,
       .updProg 100 (some "Processing complete!"),
       .revealDownload,
       .scrollTo "downloadSection",
       .hideProg] ∧
    (processClick (.resp out123Process) uploadedState).1.progressWidth = 100 ∧
    (processClick (.resp out123Process) uploadedState).1.progressText =
      "Processing complete!" ∧
    (processClick (.resp out123Process) uploadedState).1.progressVisible = false :=
  process_success_progress_order out123Process uploadedState (by decide) (by decide)

/-- Claim C7: a successful `/process` response stores the archive reference
into the session, displays the `files_created` count, reveals the download
section and scrolls to it, and makes the download click trigger a
retrieval of `/download/` followed by that reference. -/
theorem process_success_populates_download
    (data : ProcessResponse) (st : St)
    (hf : truthy st.currentFilename = true)
    (he : truthy data.error = false)
    (hz : data.zip_file.isEmpty = false) :
    (processClick (.resp data) st).1.currentZipFile = some data.zip_file ∧
    (processClick (.resp data) st).1.outputCountText = toString data.files_created ∧
    (processClick (.resp data) st).1.downloadSectionVisible = true ∧
    Event.scrollTo "downloadSection" ∈ (processClick (.resp data) st).2 ∧
    downloadClick (processClick (.resp data) st).1 =
      ((processClick (.resp data) st).1,
       [.anchorClick ("/download/" ++ data.zip_file) data.zip_file, .pulse 2000]) := by
  refine ⟨?_, ?_, ?_, ?_, ?_⟩ <;>
  · simp only [processClick, hf, he, Bool.not_true]
    simp [downloadClick, truthy, hz, showProgress, updateProgress, hideProgress,
      (by decide : ("Creating Excel files..." : String).isEmpty = false),
      (by decide : ("Creating ZIP archive..." : String).isEmpty = false),
      (by decide : ("Processing complete!" : String).isEmpty = false)]

/-- Witness for C7: the spec's example response
`{archiveReference: "out_123.zip", filesCreated: 4}`. -/
theorem process_success_populates_download_witness :
    (processClick (.resp out123Process) uploadedState).1.currentZipFile =
      some out123Process.zip_file ∧
    (processClick (.resp out123Process) uploadedState).1.outputCountText =
      toString out123Process.files_created ∧
    (processClick (.resp out123Process) uploadedState).1.downloadSectionVisible = true ∧
    Event.scrollTo "downloadSection" ∈ (processClick (.resp out123Process) uploadedState).2 ∧
    downloadClick (processClick (.resp out123Process) uploadedState).1 =
      ((processClick (.resp out123Process) uploadedState).1,
       [.anchorClick ("/download/" ++ out123Process.zip_file) out123Process.zip_file,
        .pulse 2000]) :=
  process_success_populates_download out123Process uploadedState
    (by decide) (by decide) (by decide)

lemma extMatchList_eq_true_iff (r : List Char) :
    extMatchList r = true ↔
      (∃ u, r = ['x', 's', 'l', 'x', '.'] ++ u) ∨
      (∃ u, r = ['s', 'l', 'x', '.'] ++ u) ∨
      (∃ u, r = ['v', 's', 'c', '.'] ++ u) := by
  unfold extMatchList
  split
  · rename_i u
    exact iff_of_true rfl (Or.inl ⟨u, rfl⟩)
  · rename_i u
    exact iff_of_true rfl (Or.inr (Or.inl ⟨u, rfl⟩))
  · rename_i u
    exact iff_of_true rfl (Or.inr (Or.inr ⟨u, rfl⟩))
  · rename_i h1 h2 h3
    refine iff_of_false (by simp) ?_
    rintro (⟨u, rfl⟩ | ⟨u, rfl⟩ | ⟨u, rfl⟩)
    · exact h1 u rfl
    · exact h2 u rfl
    · exact h3 u rfl

lemma rev_take_iff (l e er : List Char) (he : er = e.reverse) :
    (∃ u, l.reverse = er ++ u) ↔ ∃ t, l = t ++ e := by
  subst he
  constructor
  · rintro ⟨u, h⟩
    refine ⟨u.reverse, ?_⟩
    have h2 := congrArg List.reverse h
    simpa using h2
  · rintro ⟨t, rfl⟩
    exact ⟨t.reverse, by simp⟩

lemma extMatch_eq_true_iff (name : String) :
    extMatch name = true ↔
      ∃ ext ∈ ([".xlsx", ".xls", ".csv"] : List String), ∃ t,
        name.data.map Char.toLower = t ++ ext.data := by
  unfold extMatch
  rw [extMatchList_eq_true_iff,
      rev_take_iff _ ['.', 'x', 'l', 's', 'x'] ['x', 's', 'l', 'x', '.'] rfl,
      rev_take_iff _ ['.', 'x', 'l', 's'] ['s', 'l', 'x', '.'] rfl,
      rev_take_iff _ ['.', 'c', 's', 'v'] ['v', 's', 'c', '.'] rfl]
  have d1 : (".xlsx" : String).data = ['.', 'x', 'l', 's', 'x'] := rfl
  have d2 : (".xls" : String).data = ['.', 'x', 'l', 's'] := rfl
  have d3 : (".csv" : String).data = ['.', 'c', 's', 'v'] := rfl
  simp [d1, d2, d3]

/-- Claim C5: `handleFile` reaches the upload (its trace holds the
`/upload` request) exactly when the case-folded name ends with one of
`.xlsx`, `.xls`, `.csv`; otherwise it shows the message naming the allowed
extensions and changes nothing else — in particular no network request and
no upload occurs. -/
theorem fileValidator_gate (name : String)
    (outcome : FetchOutcome UploadResponse) (st : St) :
    (Event.fetchReq "/upload" ∈ (handleFile name outcome st).2 ↔
      ∃ ext ∈ ([".xlsx", ".xls", ".csv"] : List String), ∃ t,
        name.data.map Char.toLower = t ++ ext.data) ∧
    (extMatch name = false →
      handleFile name outcome st =
        ({ st with
            errorVisible := true,
            errorMessage := "Please upload an Excel (.xlsx, .xls) or CSV (.csv) file." },
         [.showErr "Please upload an Excel (.xlsx, .xls) or CSV (.csv) file.",
          .scrollTo "errorSection"]) ∧
      (handleFile name outcome st).2.countP isFetchReq = 0) := by
  constructor
  · rw [← extMatch_eq_true_iff]
    cases h : extMatch name
    · simp [handleFile, h]
    · cases outcome with
      | netError m => simp [handleFile, h, uploadFile]
      | resp r =>
          by_cases he : truthy r.error <;> simp [handleFile, h, uploadFile, he]
  · intro h
    refine ⟨?_, ?_⟩ <;>
      simp [handleFile, h, showError, isFetchReq, List.countP_cons, List.countP_nil]

/-- Witness for C5 at the rejected name `bad.txt`. -/
theorem fileValidator_gate_witness :
    handleFile "bad.txt" (FetchOutcome.netError "x") initState =
      ({ initState with
          errorVisible := true,
          errorMessage := "Please upload an Excel (.xlsx, .xls) or CSV (.csv) file." },
       [.showErr "Please upload an Excel (.xlsx, .xls) or CSV (.csv) file.",
        .scrollTo "errorSection"]) ∧
    (handleFile "bad.txt" (FetchOutcome.netError "x") initState).2.countP isFetchReq = 0 :=
  (fileValidator_gate "bad.txt" (FetchOutcome.netError "x") initState).2 (by decide)

lemma uploadFile_keeps_error (outcome : FetchOutcome UploadResponse) (st : St)
    (h : st.errorVisible = true) :
    (uploadFile outcome st).1.errorVisible = true := by
  cases outcome with
  | netError m => simp [uploadFile, showProgress, showError, hideProgress]
  | resp r =>
      by_cases he : truthy r.error <;>
        simp [uploadFile, he, showProgress, showError, hideProgress, h]

lemma uploadFile_no_hideErr (outcome : FetchOutcome UploadResponse) (st : St) :
    (uploadFile outcome st).2.countP isHideErr = 0 := by
  cases outcome with
  | netError m => simp [uploadFile, isHideErr, List.countP_cons, List.countP_nil]
  | resp r =>
      by_cases he : truthy r.error <;>
        simp [uploadFile, he, isHideErr, List.countP_cons, List.countP_nil]

lemma handleFile_keeps_error (name : String) (outcome : FetchOutcome UploadResponse)
    (st : St) (h : st.errorVisible = true) :
    (handleFile name outcome st).1.errorVisible = true := by
  by_cases hm : extMatch name
  · simpa [handleFile, hm] using uploadFile_keeps_error outcome st h
  · simp [handleFile, hm, showError]

lemma handleFile_no_hideErr (name : String) (outcome : FetchOutcome UploadResponse)
    (st : St) :
    (handleFile name outcome st).2.countP isHideErr = 0 := by
  by_cases hm : extMatch name
  · simpa [handleFile, hm] using uploadFile_no_hideErr outcome st
  · simp [handleFile, hm, isHideErr, List.countP_cons, List.countP_nil]

lemma processClick_keeps_error (outcome : FetchOutcome ProcessResponse) (st : St)
    (h : st.errorVisible = true) :
    (processClick outcome st).1.errorVisible = true := by
  by_cases hn : truthy st.currentFilename
  · simp only [processClick, hn, Bool.not_true]
    cases outcome with
    | netError m => simp [showProgress, showError, hideProgress]
    | resp r =>
        by_cases he : truthy r.error <;>
          simp [he, showProgress, showError, hideProgress, updateProgress, h,
            (by decide : ("Creating Excel files..." : String).isEmpty = false),
            (by decide : ("Creating ZIP archive..." : String).isEmpty = false),
            (by decide : ("Processing complete!" : String).isEmpty = false)]
  · simp only [processClick, Bool.not_eq_true] at hn ⊢
    simp [hn, showError]

lemma processClick_no_hideErr (outcome : FetchOutcome ProcessResponse) (st : St) :
    (processClick outcome st).2.countP isHideErr = 0 := by
  by_cases hn : truthy st.currentFilename
  · simp only [processClick, hn, Bool.not_true]
    cases outcome with
    | netError m => simp [isHideErr, List.countP_cons, List.countP_nil]
    | resp r =>
        by_cases he : truthy r.error <;>
          simp [he, isHideErr, List.countP_cons, List.countP_nil]
  · simp only [processClick, Bool.not_eq_true] at hn ⊢
    simp [hn, isHideErr, List.countP_cons, List.countP_nil]

lemma downloadClick_keeps_error (st : St) (h : st.errorVisible = true) :
    (downloadClick st).1.errorVisible = true := by
  by_cases hz : truthy st.currentZipFile
  · simp [downloadClick, hz, h]
  · simp only [downloadClick, Bool.not_eq_true] at hz ⊢
    simp [hz, showError]

lemma downloadClick_no_hideErr (st : St) :
    (downloadClick st).2.countP isHideErr = 0 := by
  by_cases hz : truthy st.currentZipFile
  · simp [downloadClick, hz, isHideErr, List.countP_cons, List.countP_nil]
  · simp only [downloadClick, Bool.not_eq_true] at hz ⊢
    simp [hz, isHideErr, List.countP_cons, List.countP_nil]

/-- Claim C10: no handler of the page ever clears the error surface — once
`errorVisible` is set it stays set across every step, and no step's trace
holds a `hideErr` effect; the script's `hideError`, which would clear it,
is defined but unreached. -/
theorem error_surface_never_cleared :
    (∀ step st, st.errorVisible = true → (applyStep step st).1.errorVisible = true) ∧
    (∀ step st, (applyStep step st).2.countP isHideErr = 0) ∧
    (∀ st, (hideError st).errorVisible = false) := by
  refine ⟨?_, ?_, fun st => rfl⟩
  · intro step st h
    cases step with
    | dragover => simpa [applyStep, dragoverHandler] using h
    | dragleave => simpa [applyStep, dragleaveHandler] using h
    | drop files =>
        cases files with
        | nil => simpa [applyStep, dropHandler] using h
        | cons f rest =>
            simpa [applyStep, dropHandler] using
              handleFile_keeps_error f.1 f.2 _ (by simpa using h)
    | fileChange files =>
        cases files with
        | nil => simpa [applyStep, fileInputChange] using h
        | cons f rest =>
            simpa [applyStep, fileInputChange] using handleFile_keeps_error f.1 f.2 st h
    | processBtn outcome => simpa [applyStep] using processClick_keeps_error outcome st h
    | downloadBtn => simpa [applyStep] using downloadClick_keeps_error st h
    | beforeunload failure => simpa [applyStep, beforeunloadHandler] using h
  · intro step st
    cases step with
    | dragover => simp [applyStep, dragoverHandler]
    | dragleave => simp [applyStep, dragleaveHandler]
    | drop files =>
        cases files with
        | nil => simp [applyStep, dropHandler]
        | cons f rest => simpa [applyStep, dropHandler] using handleFile_no_hideErr f.1 f.2 _
    | fileChange files =>
        cases files with
        | nil => simp [applyStep, fileInputChange]
        | cons f rest =>
            simpa [applyStep, fileInputChange] using handleFile_no_hideErr f.1 f.2 st
    | processBtn outcome => simpa [applyStep] using processClick_no_hideErr outcome st
    | downloadBtn => simpa [applyStep] using downloadClick_no_hideErr st
    | beforeunload failure =>
        cases failure <;> simp [applyStep, beforeunloadHandler, isHideErr,
          List.countP_cons, List.countP_nil]

/-- A state in which an error message is on display. -/
def shownErrState : St :=
  { initState with
      errorVisible := true,
      errorMessage := "No file available for download." }

/-- Witness for C10: the error shown by a failed download guard survives a
subsequent successful upload step. -/
theorem error_surface_never_cleared_witness :
    (applyStep (Step.fileChange [("new.csv", FetchOutcome.resp freshUpload)])
      shownErrState).1.errorVisible = true :=
  error_surface_never_cleared.1
    (Step.fileChange [("new.csv", FetchOutcome.resp freshUpload)]) shownErrState rfl

end RaackSync
